import Mathlib

/-!
Verification of the Session wrapper (src/objects/session.cpp / session.hpp).

The C++ methods are embedded as pure Lean functions.  Each JS-facing method
takes the session state, the owning connection's open flag, the marshalled
argument list, and the status/result the engine would report for the one
engine call the method can make; it returns the updated session state, the
ordered trace of registry/engine actions performed, and the outcome the
caller observes (a thrown error or a returned value).
-/

namespace BetterSqlite3

/-- JS values, discriminated exactly as session.cpp discriminates them via
V8 (IsNullOrUndefined, IsString, IsBoolean, BooleanValue). -/
inductive JSVal where
  | str : String → JSVal
  | nullv : JSVal
  | undef : JSVal
  | boolean : Bool → JSVal
  | num : Int → JSVal
  | obj : JSVal
deriving DecidableEq

/-- V8 Value::IsNullOrUndefined. -/
def JSVal.isNullOrUndefined : JSVal → Bool
  | .nullv => true
  | .undef => true
  | _ => false

/-- V8 Value::IsString. -/
def JSVal.isString : JSVal → Bool
  | .str _ => true
  | _ => false

/-- V8 Value::IsBoolean. -/
def JSVal.isBoolean : JSVal → Bool
  | .boolean _ => true
  | _ => false

/-- V8 Value::BooleanValue; session.cpp only calls it after IsBoolean. -/
def JSVal.booleanValue : JSVal → Bool
  | .boolean b => b
  | _ => false

/-- The engine's success status code. -/
def SQLITE_OK : Int := 0

/-- The mutable fields of a Session (session.hpp): the liveness flag, whether
the session is in the owning database's registry (db->AddSession put it there
at construction), and how many times sqlite3session_delete has run on the
native handle (for the at-most-once property). -/
structure SessionState where
  alive : Bool
  registered : Bool
  releaseCount : Nat
deriving DecidableEq

/-- State right after Session::Session: alive, registered via db->AddSession,
handle never released. -/
def freshSession : SessionState :=
  { alive := true, registered := true, releaseCount := 0 }

/-- Registry and engine actions a method can perform, in program order. -/
inductive Action where
  | removeSession : Action
  | sessionAttach : Option String → Action
  | sessionEnable : Bool → Action
  | sessionChangeset : Action
  | sessionDelete : Action
  | sqliteFree : Action
deriving DecidableEq

/-- The deallocation routine a Node buffer finalizer can invoke. -/
inductive Finalizer where
  | engineFree : Finalizer
  | genericFree : Finalizer
deriving DecidableEq

/-- Embeds FreeSqliteMemory (session.cpp line 115): the finalizer registered
on changeset buffers, whose body is exactly sqlite3_free(data). -/
def FreeSqliteMemory : Finalizer := Finalizer.engineFree

/-- Values a method can hand back to the caller. -/
inductive RetVal where
  | undefinedRet : RetVal
  | selfRet : RetVal
  | bufferRet : Int → Finalizer → RetVal
deriving DecidableEq

/-- What the caller observes: a thrown type error with its message, a thrown
engine (database) error, a thrown generic error with its message, or a
returned value. -/
inductive Outcome where
  | throwTypeError : String → Outcome
  | throwSqliteError : Outcome
  | throwError : String → Outcome
  | ret : RetVal → Outcome
deriving DecidableEq

/-- Result of one JS-facing method invocation. -/
structure MethodResult where
  state : SessionState
  actions : List Action
  outcome : Outcome
deriving DecidableEq

/-- Modelled from the spec: the REQUIRE_DATABASE_OPEN macro is external glue
(spec section 1 declares argument/state checking glue out of scope; section 7
classes an operation invoked while the connection is not open as a usage
error detected before touching the engine). -/
def requireDatabaseOpenError : Outcome :=
  Outcome.throwTypeError "The database connection is not open"

/-- Embeds Session::JS_attach (session.cpp lines 67-94).  attachStatus is the
status sqlite3session_attach would return for this invocation. -/
def JS_attach (s : SessionState) (dbOpen : Bool) (args : List JSVal)
    (attachStatus : Int) : MethodResult :=
  if !s.alive then ⟨s, [], Outcome.throwTypeError "The session has been closed"⟩
  else if !dbOpen then ⟨s, [], requireDatabaseOpenError⟩
  else if decide (0 < args.length) && !(args.headD JSVal.undef).isNullOrUndefined then
    match args.headD JSVal.undef with
    | JSVal.str t =>
        if attachStatus ≠ SQLITE_OK then
          ⟨s, [Action.sessionAttach (some t)], Outcome.throwSqliteError⟩
        else
          ⟨s, [Action.sessionAttach (some t)], Outcome.ret RetVal.undefinedRet⟩
    | _ => ⟨s, [], Outcome.throwTypeError "Expected first argument to be a string or null"⟩
  else
    if attachStatus ≠ SQLITE_OK then
      ⟨s, [Action.sessionAttach none], Outcome.throwSqliteError⟩
    else
      ⟨s, [Action.sessionAttach none], Outcome.ret RetVal.undefinedRet⟩

/-- Embeds Session::JS_enable (session.cpp lines 96-112). -/
def JS_enable (s : SessionState) (dbOpen : Bool) (args : List JSVal) : MethodResult :=
  if !s.alive then ⟨s, [], Outcome.throwTypeError "The session has been closed"⟩
  else if !dbOpen then ⟨s, [], requireDatabaseOpenError⟩
  else if decide (args.length < 1) || !(args.headD JSVal.undef).isBoolean then
    ⟨s, [], Outcome.throwTypeError "Expected first argument to be a boolean"⟩
  else
    ⟨s, [Action.sessionEnable (args.headD JSVal.undef).booleanValue],
      Outcome.ret RetVal.undefinedRet⟩

/-- What sqlite3session_changeset reports on one invocation: its status, the
size out-parameter, and the buffer out-parameter (none = NULL pointer). -/
structure ChangesetEngine where
  status : Int
  size : Int
  buffer : Option Nat
deriving DecidableEq

/-- Embeds Session::JS_changeset (session.cpp lines 119-158).  bufferCtorOk
says whether SAFE_NEW_BUFFER succeeds (result.IsEmpty() is false). -/
def JS_changeset (s : SessionState) (dbOpen : Bool) (eng : ChangesetEngine)
    (bufferCtorOk : Bool) : MethodResult :=
  if !s.alive then ⟨s, [], Outcome.throwTypeError "The session has been closed"⟩
  else if !dbOpen then ⟨s, [], requireDatabaseOpenError⟩
  else if eng.status ≠ SQLITE_OK then
    ⟨s, [Action.sessionChangeset], Outcome.throwSqliteError⟩
  else if eng.buffer = none ∨ eng.size = 0 then
    ⟨s, Action.sessionChangeset :: (if eng.buffer.isSome then [Action.sqliteFree] else []),
      Outcome.ret RetVal.undefinedRet⟩
  else if !bufferCtorOk then
    ⟨s, [Action.sessionChangeset, Action.sqliteFree],
      Outcome.throwError "Failed to create buffer for changeset"⟩
  else
    ⟨s, [Action.sessionChangeset], Outcome.ret (RetVal.bufferRet eng.size FreeSqliteMemory)⟩

/-- Embeds Session::CloseHandles (session.cpp lines 22-27): if alive, flip the
flag and delete the native handle; otherwise do nothing. -/
def CloseHandles (s : SessionState) : SessionState × List Action :=
  if s.alive then
    ({ s with alive := false, releaseCount := s.releaseCount + 1 }, [Action.sessionDelete])
  else (s, [])

/-- Embeds Session::JS_close (session.cpp lines 160-167).  Note it never
consults dbOpen; the parameter is carried to state that independence. -/
def JS_close (s : SessionState) (dbOpen : Bool) : MethodResult :=
  if s.alive then
    let removed := { s with registered := false }
    let closed := CloseHandles removed
    ⟨closed.1, Action.removeSession :: closed.2, Outcome.ret RetVal.selfRet⟩
  else ⟨s, [], Outcome.ret RetVal.selfRet⟩

/-- Embeds the destructor (session.cpp lines 16-19): remove from the registry
only if alive, then CloseHandles unconditionally. -/
def sessionDtor (s : SessionState) : SessionState × List Action :=
  let pre : SessionState × List Action :=
    if s.alive then ({ s with registered := false }, [Action.removeSession]) else (s, [])
  let closed := CloseHandles pre.1
  (closed.1, pre.2 ++ closed.2)

/-- Modelled from the spec: the connection-forced shutdown path lives in the
Database code, which is not part of this repository slice; spec sections 2
and 4.5 say the connection force-closes every still-open session by removing
it from the registry and then releasing it, matching the session.cpp line 21
requirement that db->RemoveSession precede CloseHandles. -/
def forcedCloseSession (s : SessionState) : SessionState × List Action :=
  if s.alive then
    let closed := CloseHandles { s with registered := false }
    (closed.1, Action.removeSession :: closed.2)
  else (s, [])

/-- One scriptable event in a session's lifetime, carrying the engine's
response where the method makes an engine call. -/
inductive Op where
  | attach : Bool → List JSVal → Int → Op
  | enable : Bool → List JSVal → Op
  | changeset : Bool → ChangesetEngine → Bool → Op
  | close : Bool → Op
  | forced : Op
  | dtor : Op
deriving DecidableEq

/-- Applies one event to the session state, yielding the action trace. -/
def step (s : SessionState) : Op → SessionState × List Action
  | Op.attach d args st => ((JS_attach s d args st).state, (JS_attach s d args st).actions)
  | Op.enable d args => ((JS_enable s d args).state, (JS_enable s d args).actions)
  | Op.changeset d eng ok => ((JS_changeset s d eng ok).state, (JS_changeset s d eng ok).actions)
  | Op.close d => ((JS_close s d).state, (JS_close s d).actions)
  | Op.forced => forcedCloseSession s
  | Op.dtor => sessionDtor s

/-- Runs a whole event sequence, concatenating the action traces. -/
def runTrace (s : SessionState) : List Op → SessionState × List Action
  | [] => (s, [])
  | op :: ops =>
      let r := step s op
      let rest := runTrace r.1 ops
      (rest.1, r.2 ++ rest.2)

/-- Number of sqlite3session_delete calls in a trace. -/
def countDeletes : List Action → Nat
  | [] => 0
  | Action.sessionDelete :: rest => countDeletes rest + 1
  | _ :: rest => countDeletes rest

/-- The state after n further close() calls. -/
def closeTimes (s : SessionState) (d : Bool) : Nat → SessionState
  | 0 => s
  | n + 1 => (JS_close (closeTimes s d n) d).state

/-- A session whose liveness flag is already false. -/
def deadSession : SessionState :=
  { alive := false, registered := false, releaseCount := 1 }

/-- Per-step release discipline: when a step performs no handle release it
leaves the release count and liveness flag unchanged; when it releases, it
releases exactly once, only from a state whose liveness flag was true, and
the flag flips to false together with the single increment of the count. -/
def releaseStepOk (s : SessionState) (op : Op) : Bool :=
  let r := step s op
  if countDeletes r.2 = 0 then
    (r.1.releaseCount == s.releaseCount) && (r.1.alive == s.alive)
  else
    (countDeletes r.2 == 1) && s.alive && (!r.1.alive)
      && (r.1.releaseCount == s.releaseCount + 1)

section Lemmas

theorem JS_attach_state (s : SessionState) (d : Bool) (args : List JSVal) (st : Int) :
    (JS_attach s d args st).state = s := by
  unfold JS_attach
  (repeat' split) <;> rfl

theorem JS_attach_noDelete (s : SessionState) (d : Bool) (args : List JSVal) (st : Int) :
    countDeletes (JS_attach s d args st).actions = 0 := by
  unfold JS_attach
  (repeat' split) <;> rfl

theorem JS_enable_state (s : SessionState) (d : Bool) (args : List JSVal) :
    (JS_enable s d args).state = s := by
  unfold JS_enable
  (repeat' split) <;> rfl

theorem JS_enable_noDelete (s : SessionState) (d : Bool) (args : List JSVal) :
    countDeletes (JS_enable s d args).actions = 0 := by
  unfold JS_enable
  (repeat' split) <;> rfl

theorem JS_changeset_state (s : SessionState) (d : Bool) (eng : ChangesetEngine) (ok : Bool) :
    (JS_changeset s d eng ok).state = s := by
  unfold JS_changeset
  (repeat' split) <;> rfl

theorem JS_changeset_noDelete (s : SessionState) (d : Bool) (eng : ChangesetEngine) (ok : Bool) :
    countDeletes (JS_changeset s d eng ok).actions = 0 := by
  unfold JS_changeset
  (repeat' split) <;> rfl

theorem JS_close_outcome (s : SessionState) (d : Bool) :
    (JS_close s d).outcome = Outcome.ret RetVal.selfRet := by
  cases hb : s.alive <;> simp [JS_close, CloseHandles, hb]

theorem JS_close_alive_false (s : SessionState) (d : Bool) :
    (JS_close s d).state.alive = false := by
  cases hb : s.alive <;> simp [JS_close, CloseHandles, hb]

theorem JS_close_dead (s : SessionState) (d : Bool) (h : s.alive = false) :
    JS_close s d = ⟨s, [], Outcome.ret RetVal.selfRet⟩ := by
  simp [JS_close, h]

theorem countDeletes_append (a b : List Action) :
    countDeletes (a ++ b) = countDeletes a + countDeletes b := by
  induction a with
  | nil => simp [countDeletes]
  | cons x a ih => cases x <;> simp [countDeletes, ih] <;> try omega

theorem step_dead (s : SessionState) (op : Op) (h : s.alive = false) :
    step s op = (s, []) := by
  cases op <;>
    simp [step, JS_attach, JS_enable, JS_changeset, JS_close, sessionDtor,
      forcedCloseSession, CloseHandles, h]

theorem runTrace_dead (ops : List Op) :
    ∀ s : SessionState, s.alive = false → runTrace s ops = (s, []) := by
  induction ops with
  | nil => intro s h; rfl
  | cons op ops ih =>
      intro s h
      simp [runTrace, step_dead s op h, ih s h]

theorem step_alive_deletes (s : SessionState) (op : Op) (h : s.alive = true) :
    countDeletes (step s op).2 ≤ 1 ∧
      ((step s op).1.alive = true → countDeletes (step s op).2 = 0) := by
  cases op with
  | attach d args st =>
      simp [step, JS_attach_noDelete, JS_attach_state]
  | enable d args =>
      simp [step, JS_enable_noDelete, JS_enable_state]
  | changeset d eng ok =>
      simp [step, JS_changeset_noDelete, JS_changeset_state]
  | close d => simp [step, JS_close, CloseHandles, h, countDeletes]
  | forced => simp [step, forcedCloseSession, CloseHandles, h, countDeletes]
  | dtor => simp [step, sessionDtor, CloseHandles, h, countDeletes]

theorem runTrace_deletes_le_one (ops : List Op) :
    ∀ s : SessionState, s.alive = true → countDeletes (runTrace s ops).2 ≤ 1 := by
  induction ops with
  | nil => intro s h; simp [runTrace, countDeletes]
  | cons op ops ih =>
      intro s h
      have hstep := step_alive_deletes s op h
      by_cases ha : (step s op).1.alive = true
      · have h0 := hstep.2 ha
        simp [runTrace, countDeletes_append, h0, ih _ ha]
      · have hf : (step s op).1.alive = false := by
          cases hb : (step s op).1.alive
          · rfl
          · exact absurd hb ha
        have hrest := runTrace_dead ops _ hf
        simp [runTrace, countDeletes_append, hrest, countDeletes]
        exact hstep.1

end Lemmas

section Claims

/-- Claim C4: whenever an alive session is closed, by explicit close(), by
connection-forced shutdown, or by destruction of the wrapping object, it
removes itself from the owning connection's registry strictly before
releasing the native handle and flipping the liveness flag to false: on all
three paths the action trace is exactly registry removal followed by handle
release, and afterwards the session is deregistered with liveness false. -/
theorem close_ordering_registry_before_release :
    ∀ (s : SessionState) (d : Bool), s.alive = true →
      (JS_close s d).actions = [Action.removeSession, Action.sessionDelete] ∧
      (sessionDtor s).2 = [Action.removeSession, Action.sessionDelete] ∧
      (forcedCloseSession s).2 = [Action.removeSession, Action.sessionDelete] ∧
      (JS_close s d).state.registered = false ∧ (JS_close s d).state.alive = false ∧
      (sessionDtor s).1.registered = false ∧ (sessionDtor s).1.alive = false ∧
      (forcedCloseSession s).1.registered = false ∧ (forcedCloseSession s).1.alive = false := by
  intro s d h
  refine ⟨?_, ?_, ?_, ?_, ?_, ?_, ?_, ?_, ?_⟩ <;>
    simp [JS_close, sessionDtor, forcedCloseSession, CloseHandles, h]

/-- Witness for C4, at a freshly constructed session. -/
theorem close_ordering_registry_before_release_witness :
    freshSession.alive = true ∧
      (JS_close freshSession true).actions
        = [Action.removeSession, Action.sessionDelete] :=
  ⟨rfl, (close_ordering_registry_before_release freshSession true rfl).1⟩

/-- Claim C5: close() is idempotent from the caller's perspective: every call
returns the session handle itself and never raises, a second call leaves the
state unchanged and performs no action, and n+1 consecutive calls produce the
same state as one. -/
theorem close_idempotent_returns_self :
    ∀ (s : SessionState) (d d2 : Bool),
      (JS_close s d).outcome = Outcome.ret RetVal.selfRet ∧
      (JS_close (JS_close s d).state d2).state = (JS_close s d).state ∧
      (JS_close (JS_close s d).state d2).actions = [] ∧
      (JS_close (JS_close s d).state d2).outcome = Outcome.ret RetVal.selfRet ∧
      ∀ n : Nat, closeTimes s d (n + 1) = (JS_close s d).state := by
  intro s d d2
  have hdead := JS_close_alive_false s d
  refine ⟨JS_close_outcome s d, ?_, ?_, JS_close_outcome _ d2, ?_⟩
  · rw [JS_close_dead _ d2 hdead]
  · rw [JS_close_dead _ d2 hdead]
  · intro n
    induction n with
    | zero => rfl
    | succ m ih =>
        show (JS_close (closeTimes s d (m + 1)) d).state = (JS_close s d).state
        rw [ih, JS_close_dead _ d hdead]

/-- Claim C6: every operation other than close() on a session whose liveness
flag is false fails with the "closed" usage error, performs no registry or
engine action, and leaves the state untouched. -/
theorem closed_session_ops_fail :
    ∀ (s : SessionState), s.alive = false →
    ∀ (d : Bool) (args : List JSVal) (st : Int) (eng : ChangesetEngine) (ok : Bool),
      JS_attach s d args st
          = ⟨s, [], Outcome.throwTypeError "The session has been closed"⟩ ∧
      JS_enable s d args
          = ⟨s, [], Outcome.throwTypeError "The session has been closed"⟩ ∧
      JS_changeset s d eng ok
          = ⟨s, [], Outcome.throwTypeError "The session has been closed"⟩ := by
  intro s h d args st eng ok
  refine ⟨?_, ?_, ?_⟩ <;> simp [JS_attach, JS_enable, JS_changeset, h]

/-- Witness for C6, at a closed session. -/
theorem closed_session_ops_fail_witness :
    JS_attach deadSession true [] 0
        = ⟨deadSession, [], Outcome.throwTypeError "The session has been closed"⟩ ∧
    JS_enable deadSession true []
        = ⟨deadSession, [], Outcome.throwTypeError "The session has been closed"⟩ ∧
    JS_changeset deadSession true ⟨0, 0, none⟩ true
        = ⟨deadSession, [], Outcome.throwTypeError "The session has been closed"⟩ :=
  closed_session_ops_fail deadSession rfl true [] 0 ⟨0, 0, none⟩ true

/-- Claim C9: attach on an alive session with an open connection, given a
first argument that is neither a string nor null/undefined, fails with a
type usage error and makes no engine call. -/
theorem attach_bad_arg_type_error :
    ∀ (s : SessionState) (v : JSVal) (rest : List JSVal) (st : Int),
      s.alive = true → v.isString = false → v.isNullOrUndefined = false →
      JS_attach s true (v :: rest) st =
        ⟨s, [], Outcome.throwTypeError "Expected first argument to be a string or null"⟩ := by
  intro s v rest st ha hs hn
  cases v <;> simp_all [JS_attach, JSVal.isString, JSVal.isNullOrUndefined]

/-- Witness for C9: a numeric first argument. -/
theorem attach_bad_arg_type_error_witness :
    JS_attach freshSession true [JSVal.num 5] 0 =
      ⟨freshSession, [],
        Outcome.throwTypeError "Expected first argument to be a string or null"⟩ :=
  attach_bad_arg_type_error freshSession (JSVal.num 5) [] 0 rfl rfl rfl

/-- Claim C10: close() never consults the owning connection's open flag: it
returns the session itself even when the connection is closed, and its whole
result is independent of the flag, whereas attach, enable and changeset on an
alive session with a closed connection fail with the connection usage
error. -/
theorem close_ignores_connection_state :
    ∀ (s : SessionState) (args : List JSVal) (st : Int) (eng : ChangesetEngine) (ok : Bool),
      (JS_close s false).outcome = Outcome.ret RetVal.selfRet ∧
      (∀ d d2 : Bool, JS_close s d = JS_close s d2) ∧
      (s.alive = true →
        (JS_attach s false args st).outcome = requireDatabaseOpenError ∧
        (JS_enable s false args).outcome = requireDatabaseOpenError ∧
        (JS_changeset s false eng ok).outcome = requireDatabaseOpenError) := by
  intro s args st eng ok
  refine ⟨JS_close_outcome s false, fun d d2 => rfl, fun ha => ⟨?_, ?_, ?_⟩⟩ <;>
    simp [JS_attach, JS_enable, JS_changeset, ha]

/-- Witness for C10, at a fresh session with the connection closed. -/
theorem close_ignores_connection_state_witness :
    (JS_close freshSession false).outcome = Outcome.ret RetVal.selfRet ∧
    (JS_attach freshSession false [] 0).outcome = requireDatabaseOpenError :=
  ⟨(close_ignores_connection_state freshSession [] 0 ⟨0, 0, none⟩ true).1,
   ((close_ignores_connection_state freshSession [] 0 ⟨0, 0, none⟩ true).2.2 rfl).1⟩

/-- Claim C1: when changeset() obtains a non-empty engine-allocated buffer,
the returned byte-array value carries the FreeSqliteMemory finalizer, which
is the engine deallocator and not a generic one, and no synchronous free
happens on the success path; if host-side buffer construction fails after the
successful engine call, the engine allocation is freed synchronously and the
reported error is a generic construction error, distinct from an engine
error. -/
theorem changeset_finalizer_and_failure_path :
    ∀ (s : SessionState) (eng : ChangesetEngine) (a : Nat),
      s.alive = true → eng.status = SQLITE_OK → eng.buffer = some a → eng.size ≠ 0 →
      ((JS_changeset s true eng true).outcome
          = Outcome.ret (RetVal.bufferRet eng.size FreeSqliteMemory) ∧
        FreeSqliteMemory = Finalizer.engineFree ∧
        FreeSqliteMemory ≠ Finalizer.genericFree ∧
        (JS_changeset s true eng true).actions = [Action.sessionChangeset]) ∧
      ((JS_changeset s true eng false).outcome
          = Outcome.throwError "Failed to create buffer for changeset" ∧
        (JS_changeset s true eng false).outcome ≠ Outcome.throwSqliteError ∧
        (JS_changeset s true eng false).actions
          = [Action.sessionChangeset, Action.sqliteFree]) := by
  intro s eng a ha hst hb hsz
  refine ⟨⟨?_, rfl, by decide, ?_⟩, ⟨?_, by simp [JS_changeset, ha, hst, hb, hsz], ?_⟩⟩ <;>
    simp [JS_changeset, ha, hst, hb, hsz]

/-- Witness for C1: a three-byte allocation at address 1. -/
theorem changeset_finalizer_and_failure_path_witness :
    (JS_changeset freshSession true ⟨0, 3, some 1⟩ true).outcome
        = Outcome.ret (RetVal.bufferRet 3 FreeSqliteMemory) ∧
    (JS_changeset freshSession true ⟨0, 3, some 1⟩ false).actions
        = [Action.sessionChangeset, Action.sqliteFree] :=
  ⟨(changeset_finalizer_and_failure_path freshSession ⟨0, 3, some 1⟩ 1 rfl rfl rfl
      (by decide)).1.1,
   (changeset_finalizer_and_failure_path freshSession ⟨0, 3, some 1⟩ 1 rfl rfl rfl
      (by decide)).2.2.2⟩

/-- Counterexample to C2 as stated: attaching with the explicit string "all"
does not enter wildcard mode; the engine is called with the table name "all",
not with the NULL wildcard. -/
theorem attach_all_literal_counterexample :
    (JS_attach freshSession true [JSVal.str "all"] SQLITE_OK).actions
        = [Action.sessionAttach (some "all")] ∧
    (JS_attach freshSession true [JSVal.str "all"] SQLITE_OK).actions
        ≠ [Action.sessionAttach none] := by
  constructor
  · rfl
  · simp [JS_attach, freshSession, JSVal.isNullOrUndefined, SQLITE_OK]

/-- Claim C2 as amended: attach with no argument or a null/undefined argument
attaches every table (the engine is called with the NULL wildcard); attach
with any string argument, including the literal "all", attaches only the
table of that name. -/
theorem attach_wildcard_amended :
    ∀ (s : SessionState) (args : List JSVal) (st : Int), s.alive = true →
      ((args = [] ∨ (args.headD JSVal.undef).isNullOrUndefined = true) →
        (JS_attach s true args st).actions = [Action.sessionAttach none]) ∧
      (∀ (t : String) (rest : List JSVal), args = JSVal.str t :: rest →
        (JS_attach s true args st).actions = [Action.sessionAttach (some t)]) := by
  intro s args st ha
  constructor
  · intro hw
    cases args with
    | nil => simp [JS_attach, ha, apply_ite MethodResult.actions]
    | cons v rest =>
        have hh : v.isNullOrUndefined = true := by
          rcases hw with he | hh2
          · exact absurd he (by simp)
          · simpa using hh2
        cases v with
        | nullv =>
            simp [JS_attach, ha, JSVal.isNullOrUndefined, apply_ite MethodResult.actions]
        | undef =>
            simp [JS_attach, ha, JSVal.isNullOrUndefined, apply_ite MethodResult.actions]
        | str t => exact absurd hh (by simp [JSVal.isNullOrUndefined])
        | boolean b => exact absurd hh (by simp [JSVal.isNullOrUndefined])
        | num n => exact absurd hh (by simp [JSVal.isNullOrUndefined])
        | obj => exact absurd hh (by simp [JSVal.isNullOrUndefined])
  · intro t rest he
    subst he
    simp [JS_attach, ha, JSVal.isNullOrUndefined, apply_ite MethodResult.actions]

/-- Witness for the amended C2: no argument gives the wildcard; the literal
string "all" attaches the table named "all". -/
theorem attach_wildcard_amended_witness :
    (JS_attach freshSession true [] 0).actions = [Action.sessionAttach none] ∧
    (JS_attach freshSession true [JSVal.str "all"] 0).actions
        = [Action.sessionAttach (some "all")] :=
  ⟨(attach_wildcard_amended freshSession [] 0 rfl).1 (Or.inl rfl),
   (attach_wildcard_amended freshSession [JSVal.str "all"] 0 rfl).2 "all" [] rfl⟩

/-- Counterexample to C3 as stated: enable with two arguments, the first a
boolean, succeeds and reaches the engine instead of being reported as a
usage error. -/
theorem enable_extra_args_counterexample :
    (JS_enable freshSession true [JSVal.boolean true, JSVal.str "extra"]).outcome
        = Outcome.ret RetVal.undefinedRet ∧
    (JS_enable freshSession true [JSVal.boolean true, JSVal.str "extra"]).actions
        = [Action.sessionEnable true] ∧
    (JS_enable freshSession true [JSVal.boolean true, JSVal.str "extra"]).outcome
        ≠ Outcome.throwTypeError "Expected first argument to be a boolean" := by
  refine ⟨rfl, rfl, ?_⟩
  simp [JS_enable, freshSession, JSVal.isBoolean, JSVal.booleanValue]

/-- Claim C3 as amended: enable succeeds exactly when at least one argument
is given and the first is a boolean; zero arguments or a non-boolean first
argument is a usage error with no engine call; arguments beyond the first
are ignored. -/
theorem enable_arity_amended :
    ∀ (s : SessionState) (args : List JSVal), s.alive = true →
      ((args.length = 0 ∨ (args.headD JSVal.undef).isBoolean = false) →
        JS_enable s true args =
          ⟨s, [], Outcome.throwTypeError "Expected first argument to be a boolean"⟩) ∧
      (∀ (b : Bool) (rest : List JSVal), args = JSVal.boolean b :: rest →
        JS_enable s true args =
          ⟨s, [Action.sessionEnable b], Outcome.ret RetVal.undefinedRet⟩ ∧
        JS_enable s true args = JS_enable s true [JSVal.boolean b]) := by
  intro s args ha
  constructor
  · intro hw
    cases args with
    | nil => simp [JS_enable, ha]
    | cons v rest =>
        have hh : v.isBoolean = false := by
          rcases hw with he | hh2
          · exact absurd he (by simp)
          · simpa using hh2
        cases v with
        | boolean b => exact absurd hh (by simp [JSVal.isBoolean])
        | str t => simp [JS_enable, ha, JSVal.isBoolean]
        | nullv => simp [JS_enable, ha, JSVal.isBoolean]
        | undef => simp [JS_enable, ha, JSVal.isBoolean]
        | num n => simp [JS_enable, ha, JSVal.isBoolean]
        | obj => simp [JS_enable, ha, JSVal.isBoolean]
  · intro b rest he
    subst he
    constructor <;> simp [JS_enable, ha, JSVal.isBoolean, JSVal.booleanValue]

/-- Witness for the amended C3: zero arguments error; one boolean argument
plus an extra ignored argument succeeds. -/
theorem enable_arity_amended_witness :
    JS_enable freshSession true [] =
      ⟨freshSession, [], Outcome.throwTypeError "Expected first argument to be a boolean"⟩ ∧
    JS_enable freshSession true [JSVal.boolean false, JSVal.num 9] =
      ⟨freshSession, [Action.sessionEnable false], Outcome.ret RetVal.undefinedRet⟩ :=
  ⟨(enable_arity_amended freshSession [] rfl).1 (Or.inl rfl),
   ((enable_arity_amended freshSession [JSVal.boolean false, JSVal.num 9] rfl).2
      false [JSVal.num 9] rfl).1⟩

/-- Claim C7: over every sequence of operations from a fresh session, the
native handle is released at most once; and every single step either leaves
the release count and liveness flag unchanged, or performs exactly one
release from a state whose liveness flag was true, flipping it to false
together with the release. -/
theorem handle_released_at_most_once :
    (∀ ops : List Op, countDeletes (runTrace freshSession ops).2 ≤ 1) ∧
    (∀ (s : SessionState) (op : Op), releaseStepOk s op = true) := by
  constructor
  · intro ops
    exact runTrace_deletes_le_one ops freshSession rfl
  · intro s op
    cases hb : s.alive
    · simp [releaseStepOk, step_dead s op hb, countDeletes]
    · cases op with
      | attach d args st =>
          simp [releaseStepOk, step, JS_attach_state, JS_attach_noDelete]
      | enable d args =>
          simp [releaseStepOk, step, JS_enable_state, JS_enable_noDelete]
      | changeset d eng ok =>
          simp [releaseStepOk, step, JS_changeset_state, JS_changeset_noDelete]
      | close d =>
          simp [releaseStepOk, step, JS_close, CloseHandles, hb, countDeletes]
      | forced =>
          simp [releaseStepOk, step, forcedCloseSession, CloseHandles, hb, countDeletes]
      | dtor =>
          simp [releaseStepOk, step, sessionDtor, CloseHandles, hb, countDeletes]

/-- Claim C8: changeset() on an alive session with an open connection, when
the engine reports success with a NULL buffer or zero size, returns the
explicit undefined result, frees a non-NULL zero-length allocation
immediately, and leaves the session state untouched. -/
theorem changeset_no_changes_undefined :
    ∀ (s : SessionState) (eng : ChangesetEngine) (ok : Bool),
      s.alive = true → eng.status = SQLITE_OK → (eng.buffer = none ∨ eng.size = 0) →
      (JS_changeset s true eng ok).outcome = Outcome.ret RetVal.undefinedRet ∧
      (JS_changeset s true eng ok).actions =
        Action.sessionChangeset ::
          (if eng.buffer.isSome then [Action.sqliteFree] else []) ∧
      (JS_changeset s true eng ok).state = s := by
  intro s eng ok ha hst hb
  refine ⟨?_, ?_, ?_⟩ <;> simp [JS_changeset, ha, hst, hb]

/-- Witness for C8: a NULL buffer and a non-NULL zero-length buffer. -/
theorem changeset_no_changes_undefined_witness :
    (JS_changeset freshSession true ⟨0, 5, none⟩ true).outcome
        = Outcome.ret RetVal.undefinedRet ∧
    (JS_changeset freshSession true ⟨0, 0, some 2⟩ true).actions
        = Action.sessionChangeset ::
            (if (some 2 : Option Nat).isSome then [Action.sqliteFree] else []) :=
  ⟨(changeset_no_changes_undefined freshSession ⟨0, 5, none⟩ true rfl rfl (Or.inl rfl)).1,
   (changeset_no_changes_undefined freshSession ⟨0, 0, some 2⟩ true rfl rfl
      (Or.inr rfl)).2.1⟩

end Claims

end BetterSqlite3
